import Mathlib

/-!
Verification of the map.rs routing and geolocation core.

This file gives a shallow embedding in Lean 4 of the domain-logic layer of
the repository (src/geolocation.rs and src/routing.rs) and proves the
specified properties about it.

Modelling conventions:
* Rust f64 values that are only stored, compared or formatted are modelled
  as rational numbers; f64 values fed to trigonometric functions
  (the haversine distance) are modelled as real numbers.
* Rust floating-point formatting with a fixed number of decimals rounds to
  nearest with ties to even; the helpers rustRound, fmtFixed1 and fmtFixed0
  reproduce this for the nonnegative values the program formats.
* The Rust remainder operator on f64 truncates the quotient toward zero;
  qtrunc and rustRem reproduce this exactly on rationals.
* Network effects are made explicit: the decoded provider payload (or the
  transport failure) is passed as an argument, and a Rust panic (unwrap on
  a parse failure) is modelled as the value none.
* Location.new in the source stamps the current system time; its embedding
  takes the observed clock value as an explicit argument called now.
-/

attribute [local semireducible] Rat.add Rat.sub Rat.mul Rat.inv Rat.ofScientific

/-- Floor of a rational, computed from its numerator and denominator so the
kernel can evaluate it (integer division in Lean rounds toward negative
infinity for the positive denominator of a normalized rational). -/
def qfloor (q : ℚ) : ℤ := q.num / q.den

/-- Ceiling of a rational, computable. -/
def qceil (q : ℚ) : ℤ := -qfloor (-q)

/-- Truncation toward zero, as Rust f64 truncation behaves. -/
def qtrunc (q : ℚ) : ℤ := if 0 ≤ q then qfloor q else qceil q

/-- The Rust remainder operator a % m on f64: a - m * trunc (a / m),
keeping the sign of the dividend. -/
def rustRem (a m : ℚ) : ℚ := a - m * (qtrunc (a / m) : ℚ)

/-- Round to the nearest integer, ties to even, as Rust fixed-precision
float formatting rounds. -/
def rustRound (q : ℚ) : ℤ :=
  let f := qfloor q
  let r := q - (f : ℚ)
  if r < 1/2 then f
  else if 1/2 < r then f + 1
  else if 2 ∣ f then f else f + 1

/-- Rust format specifier with one decimal digit applied to a nonnegative
value, as in format "{:.1}".  (The sign of a negative zero is not
modelled; the program only formats nonnegative distances.) -/
def fmtFixed1 (q : ℚ) : String :=
  let n := rustRound (q * 10)
  if n < 0 then "-" ++ toString ((-n) / 10) ++ "." ++ toString ((-n) % 10)
  else toString (n / 10) ++ "." ++ toString (n % 10)

/-- Rust format specifier with zero decimal digits, as in format "{:.0}". -/
def fmtFixed0 (q : ℚ) : String := toString (rustRound q)

theorem qfloor_eq (q : ℚ) : qfloor q = ⌊q⌋ := Rat.floor_def.symm

theorem qceil_eq (q : ℚ) : qceil q = ⌈q⌉ := by
  rw [qceil, qfloor_eq, Int.floor_neg, neg_neg]

theorem qtrunc_of_nonneg {q : ℚ} (h : 0 ≤ q) : qtrunc q = ⌊q⌋ := by
  rw [qtrunc, if_pos h, qfloor_eq]

theorem qtrunc_of_neg {q : ℚ} (h : q < 0) : qtrunc q = ⌈q⌉ := by
  rw [qtrunc, if_neg (not_le.mpr h), qceil_eq]

theorem rustRem_bounds_of_nonneg {a m : ℚ} (hm : 0 < m) (ha : 0 ≤ a) :
    0 ≤ rustRem a m ∧ rustRem a m < m := by
  have hq : 0 ≤ a / m := div_nonneg ha hm.le
  have hrw : rustRem a m = m * Int.fract (a / m) := by
    rw [rustRem, qtrunc_of_nonneg hq, Int.fract]
    field_simp
  constructor
  · rw [hrw]; exact mul_nonneg hm.le (Int.fract_nonneg _)
  · rw [hrw]
    calc m * Int.fract (a / m) < m * 1 :=
          (mul_lt_mul_left hm).mpr (Int.fract_lt_one _)
    _ = m := mul_one m

theorem rustRem_bounds_of_neg {a m : ℚ} (hm : 0 < m) (ha : a < 0) :
    -m < rustRem a m ∧ rustRem a m ≤ 0 := by
  have hq : a / m < 0 := div_neg_of_neg_of_pos ha hm
  have hc : (⌈a / m⌉ : ℤ) = -⌊-(a / m)⌋ := by rw [Int.floor_neg, neg_neg]
  have hrw : rustRem a m = -(m * Int.fract (-(a / m))) := by
    have hm0 : m ≠ 0 := ne_of_gt hm
    rw [rustRem, qtrunc_of_neg hq, hc, Int.fract]
    push_cast
    field_simp
    ring
  constructor
  · rw [hrw, neg_lt_neg_iff]
    calc m * Int.fract (-(a / m)) < m * 1 :=
          (mul_lt_mul_left hm).mpr (Int.fract_lt_one _)
    _ = m := mul_one m
  · rw [hrw, neg_nonpos]
    exact mul_nonneg hm.le (Int.fract_nonneg _)

/-! ## Geolocation (src/geolocation.rs) -/

/-- The Location struct of src/geolocation.rs. -/
structure Location where
  latitude : ℝ
  longitude : ℝ
  accuracy : Option ℝ
  timestamp : Option ℕ

/-- Location::new.  The source stamps the current unix time into the
timestamp field; the observed clock value is the explicit argument now. -/
def Location.new (now : ℕ) (latitude longitude : ℝ) : Location :=
  { latitude := latitude, longitude := longitude
    accuracy := none, timestamp := some now }

/-- Location::with_accuracy. -/
def Location.with_accuracy (l : Location) (accuracy : ℝ) : Location :=
  { l with accuracy := some accuracy }

/-- Rust f64::to_radians: multiplication by pi / 180. -/
noncomputable def toRadians (x : ℝ) : ℝ := x * (Real.pi / 180)

open Classical in
/-- Rust f64::atan2 on finite inputs (the mathematical two-argument
arctangent). -/
noncomputable def atan2 (y x : ℝ) : ℝ :=
  if 0 < x then Real.arctan (y / x)
  else if x < 0 then
    (if 0 ≤ y then Real.arctan (y / x) + Real.pi
     else Real.arctan (y / x) - Real.pi)
  else if 0 < y then Real.pi / 2
  else if y < 0 then -(Real.pi / 2)
  else 0

/-- Location::distance_to: the haversine great-circle distance with mean
Earth radius 6371000 meters. -/
noncomputable def Location.distance_to (self other : Location) : ℝ :=
  let lat1 := toRadians self.latitude
  let lat2 := toRadians other.latitude
  let delta_lat := toRadians (other.latitude - self.latitude)
  let delta_lon := toRadians (other.longitude - self.longitude)
  let a := Real.sin (delta_lat / 2) ^ 2
    + Real.cos lat1 * Real.cos lat2 * Real.sin (delta_lon / 2) ^ 2
  let c := 2 * atan2 (Real.sqrt a) (Real.sqrt (1 - a))
  6371000 * c

/-- The GeolocationService struct of src/geolocation.rs. -/
structure GeolocationService where
  current_location : Option Location
  location_history : List Location

/-- GeolocationService::new. -/
def GeolocationService.new : GeolocationService :=
  { current_location := none, location_history := [] }

/-- GeolocationService::update_location: push the location onto the
history, set it as current, and if the history now exceeds 100 entries
remove the entry at index 0. -/
def GeolocationService.update_location (s : GeolocationService)
    (location : Location) : GeolocationService :=
  let history := s.location_history ++ [location]
  { current_location := some location
    location_history := if history.length > 100 then history.drop 1 else history }

/-- A sequence of update_location calls applied in order. -/
def GeolocationService.applyUpdates (s : GeolocationService)
    (ls : List Location) : GeolocationService :=
  ls.foldl GeolocationService.update_location s

/-! ## Routing (src/routing.rs): data model -/

/-- The Waypoint struct of src/routing.rs. -/
structure Waypoint where
  lat : ℝ
  lng : ℝ
  name : Option String

/-- The OSRMManeuver struct decoded from the provider response.  The
location array holds longitude at index 0 and latitude at index 1; it is
modelled as the pair (entry 0, entry 1). -/
structure OSRMManeuver where
  location : ℝ × ℝ
  instruction : Option String
  maneuver_type : Option String
  modifier : Option String
  bearing_after : Option ℚ
  bearing_before : Option ℚ

/-- The OSRMStep struct decoded from the provider response. -/
structure OSRMStep where
  distance : ℚ
  duration : ℚ
  maneuver : OSRMManeuver
  name : Option String
  ref_ : Option String
  destinations : Option String
  mode : Option String

/-- The OSRMLeg struct decoded from the provider response. -/
structure OSRMLeg where
  distance : ℚ
  duration : ℚ
  steps : List OSRMStep

/-- The OSRMRoute struct decoded from the provider response.  The source
re-serializes the geojson geometry to a string for the RouteResponse; the
geometry is modelled directly in that serialized form. -/
structure OSRMRoute where
  distance : ℚ
  duration : ℚ
  geometry : String
  legs : List OSRMLeg

/-- The OSRMResponse struct decoded from the provider response. -/
structure OSRMResponse where
  routes : List OSRMRoute

/-- The RouteInstruction struct of src/routing.rs. -/
structure RouteInstruction where
  text : String
  distance : ℚ
  duration : ℚ
  location : Location

/-- The RouteResponse struct of src/routing.rs. -/
structure RouteResponse where
  distance : ℚ
  duration : ℚ
  geometry : String
  instructions : List RouteInstruction

/-- The NominatimResult struct decoded from the geocoding response. -/
structure NominatimResult where
  lat : String
  lon : String
  display_name : String

/-! ## Routing: instruction generation -/

/-- RoutingService::format_distance. -/
def format_distance (meters : ℚ) (use_miles : Bool) : String :=
  if use_miles then
    let miles := meters * 0.000621371
    fmtFixed1 miles ++ " mi"
  else
    if meters ≥ 1000 then fmtFixed1 (meters / 1000) ++ " km"
    else fmtFixed0 meters ++ " m"

/-- The bearing normalization ((b % 360.0) + 360.0) % 360.0 computed inside
RoutingService::bearing_to_direction. -/
def normalize_bearing (b : ℚ) : ℚ := rustRem (rustRem b 360 + 360) 360

/-- The sector match inside RoutingService::bearing_to_direction, applied
to the normalized bearing.  The sector boundaries are 22.5 + k * 45
degrees, exactly as the specification tabulates them. -/
def compass_sector (normalized : ℚ) : String :=
  if normalized < 22.5 ∨ normalized ≥ 337.5 then "north"
  else if normalized < 67.5 then "northeast"
  else if normalized < 112.5 then "east"
  else if normalized < 157.5 then "southeast"
  else if normalized < 202.5 then "south"
  else if normalized < 247.5 then "southwest"
  else if normalized < 292.5 then "west"
  else "northwest"

/-- RoutingService::bearing_to_direction. -/
def bearing_to_direction (bearing : Option ℚ) : String :=
  match bearing with
  | some b => compass_sector (normalize_bearing b)
  | none => "straight"

/-- The street-info composition at the top of
RoutingService::generate_instruction_text. -/
def street_info (step : OSRMStep) : String :=
  let road_name := step.name.getD ""
  if road_name ≠ "" then
    match step.ref_ with
    | some r => "on " ++ road_name ++ " (" ++ r ++ ")"
    | none => "on " ++ road_name
  else
    match step.ref_ with
    | some r => "on " ++ r
    | none => ""

/-- RoutingService::generate_instruction_text.  The Rust match on the
maneuver type string is rendered as a chain of string comparisons. -/
def generate_instruction_text (step : OSRMStep) (use_miles : Bool) : String :=
  let maneuver_type := step.maneuver.maneuver_type.getD "continue"
  let modifier := step.maneuver.modifier
  let distance_text := format_distance step.distance use_miles
  let si := street_info step
  if maneuver_type = "depart" then
    if si = "" then
      "Head " ++ bearing_to_direction step.maneuver.bearing_after
        ++ " for " ++ distance_text
    else
      "Head " ++ bearing_to_direction step.maneuver.bearing_after
        ++ " " ++ si ++ " for " ++ distance_text
  else if maneuver_type = "turn" then
    let direction := (modifier.getD "").replace "sharp " "sharp "
    if si = "" then "Turn " ++ direction ++ " for " ++ distance_text
    else "Turn " ++ direction ++ " " ++ si ++ " for " ++ distance_text
  else if maneuver_type = "merge" then
    let direction := (modifier.getD "").replace "slight " ""
    if si = "" then "Merge " ++ direction ++ " for " ++ distance_text
    else "Merge " ++ direction ++ " " ++ si ++ " for " ++ distance_text
  else if maneuver_type = "ramp" then
    let direction := (modifier.getD "").replace "slight " ""
    if si = "" then "Take the ramp " ++ direction ++ " for " ++ distance_text
    else "Take the ramp " ++ direction ++ " " ++ si ++ " for " ++ distance_text
  else if maneuver_type = "fork" then
    let direction := modifier.getD "left"
    if si = "" then "Keep " ++ direction ++ " at the fork for " ++ distance_text
    else "Keep " ++ direction ++ " at the fork " ++ si ++ " for " ++ distance_text
  else if maneuver_type = "roundabout" then
    if si = "" then "Enter the roundabout for " ++ distance_text
    else "Enter the roundabout and take " ++ si ++ " for " ++ distance_text
  else if maneuver_type = "arrive" then
    "Arrive at your destination"
  else
    if si = "" then "Continue for " ++ distance_text
    else "Continue " ++ si ++ " for " ++ distance_text

/-- The loop body of RoutingService::parse_instructions: the
RouteInstruction pushed for one step. -/
def instruction_of_step (use_miles : Bool) (now : ℕ) (step : OSRMStep) :
    RouteInstruction :=
  { text := generate_instruction_text step use_miles
    distance := step.distance
    duration := step.duration
    location := Location.new now step.maneuver.location.2 step.maneuver.location.1 }

/-- RoutingService::parse_instructions: the nested push loop over legs and
steps, rendered as nested left folds over an accumulator. -/
def parse_instructions (legs : List OSRMLeg) (use_miles : Bool) (now : ℕ) :
    List RouteInstruction :=
  legs.foldl
    (fun acc leg =>
      leg.steps.foldl (fun acc step => acc ++ [instruction_of_step use_miles now step]) acc)
    []

/-! ## Routing: orchestration -/

/-- The outcome of the HTTP round trip to the routing provider, passed to
the embedded calculate_route explicitly: a transport failure propagated by
the question-mark operator, or a response with its success flag, status
text, and decoded body (none when JSON decoding fails). -/
inductive HttpOutcome where
  | transportFailure (message : String)
  | response (success : Bool) (status : String) (body : Option OSRMResponse)

/-- RoutingService::calculate_route, with the network round trip made an
explicit argument.  Errors are the error strings of the source. -/
def calculate_route (waypoints : List Waypoint) (use_miles : Bool) (now : ℕ)
    (outcome : HttpOutcome) : Except String RouteResponse :=
  if waypoints.length < 2 then Except.error "At least 2 waypoints are required"
  else
    match outcome with
    | HttpOutcome.transportFailure message => Except.error message
    | HttpOutcome.response success status body =>
      if !success then Except.error ("Routing API error: " ++ status)
      else
        match body with
        | none => Except.error "JSON decode error"
        | some osrm =>
          match osrm.routes with
          | [] => Except.error "No route found"
          | route :: _ =>
            Except.ok
              { distance := route.distance
                duration := route.duration
                geometry := route.geometry
                instructions := parse_instructions route.legs use_miles now }

/-! ## Routing: geocoding -/

/-- Parse the sign character of a Rust float literal; true means negative. -/
def parseNegSign : List Char → Bool × List Char
  | '+' :: rest => (false, rest)
  | '-' :: rest => (true, rest)
  | cs => (false, cs)

/-- The numeric value of a run of decimal digits. -/
def digitsToNat (cs : List Char) : ℕ :=
  cs.foldl (fun acc c => acc * 10 + (c.toNat - 48)) 0

/-- Rust str::parse for f64 restricted to finite decimal literals:
optional sign, digits with an optional fractional part (digits required on
at least one side of the dot), and an optional exponent.  The special
forms inf, infinity and NaN have no rational counterpart and are outside
the model; the program never receives them from the geocoding provider. -/
def rustParseF64 (s : String) : Option ℚ :=
  let (neg, cs) := parseNegSign s.toList
  let sign : ℚ := if neg then -1 else 1
  let ip := cs.takeWhile Char.isDigit
  let cs := cs.dropWhile Char.isDigit
  let (fp, cs) :=
    match cs with
    | '.' :: rest => (rest.takeWhile Char.isDigit, rest.dropWhile Char.isDigit)
    | other => ([], other)
  if ip.isEmpty ∧ fp.isEmpty then none
  else
    let mantissa : ℚ := (digitsToNat ip : ℚ) + (digitsToNat fp : ℚ) / ((10 : ℚ) ^ fp.length)
    match cs with
    | [] => some (sign * mantissa)
    | e :: rest =>
      if e = 'e' ∨ e = 'E' then
        let (eneg, rest) := parseNegSign rest
        let ed := rest.takeWhile Char.isDigit
        let rest := rest.dropWhile Char.isDigit
        if ed.isEmpty ∨ ¬rest.isEmpty then none
        else
          let exponent : ℤ := (if eneg then -1 else 1) * (digitsToNat ed : ℤ)
          some (sign * mantissa * (10 : ℚ) ^ exponent)
      else none

/-- RoutingService::geocode, applied to the decoded provider items.  The
source calls unwrap on each parsed coordinate, so a malformed float panics
the process; the panic is modelled as the value none, while some holds the
list the source returns inside Ok. -/
def geocode (now : ℕ) (results : List NominatimResult) : Option (List Location) :=
  results.mapM fun result => do
    let lat ← rustParseF64 result.lat
    let lon ← rustParseF64 result.lon
    pure (Location.new now (lat : ℝ) (lon : ℝ))

/-! ## Concrete fixtures used by witnesses and counterexamples -/

/-- A maneuver with the given type, modifier and bearing and no other
metadata. -/
def mkManeuver (t : Option String) (m : Option String) (b : Option ℚ) :
    OSRMManeuver :=
  { location := (0, 0), instruction := none, maneuver_type := t
    modifier := m, bearing_after := b, bearing_before := none }

/-- A roundabout step with no road name and no road reference. -/
def roundabout_step : OSRMStep :=
  { distance := 500, duration := 60
    maneuver := mkManeuver (some "roundabout") none none
    name := none, ref_ := none, destinations := none, mode := none }

/-- An arrive step carrying a modifier, road name, road reference, bearing
and distance, all of which the arrive template must ignore. -/
def arrive_step : OSRMStep :=
  { distance := 1234, duration := 60
    maneuver := mkManeuver (some "arrive") (some "left") (some 90)
    name := some "Main Street", ref_ := some "A1"
    destinations := some "City", mode := some "driving" }

/-- A plain turn step used to build legs. -/
def turn_step : OSRMStep :=
  { distance := 100, duration := 10
    maneuver := mkManeuver (some "turn") (some "left") none
    name := some "Main Street", ref_ := none, destinations := none, mode := none }

/-- A leg with exactly two steps. -/
def leg_two_steps : OSRMLeg :=
  { distance := 200, duration := 20, steps := [turn_step, turn_step] }

/-- A waypoint fixture. -/
def waypoint0 : Waypoint := { lat := 51.5, lng := -0.1, name := none }

/-- A geocoding item whose lat field is not a valid float. -/
def bad_nominatim : NominatimResult :=
  { lat := "abc", lon := "0.0", display_name := "Nowhere" }

/-- A well-formed geocoding item. -/
def good_nominatim : NominatimResult :=
  { lat := "51.505", lon := "-0.09", display_name := "London" }

/-- Location fixtures for the history bound witness. -/
def locA : Location :=
  { latitude := 51.5, longitude := -0.1, accuracy := none, timestamp := none }

/-- A second location fixture, used as the final update. -/
def locB : Location :=
  { latitude := 48.85, longitude := 2.35, accuracy := none, timestamp := none }

/-! ## Claim theorems -/

/-- Claim C10: with_accuracy sets the accuracy field to some a and leaves
latitude, longitude and timestamp unchanged. -/
theorem with_accuracy_frame (l : Location) (a : ℝ) :
    (l.with_accuracy a).accuracy = some a ∧
    (l.with_accuracy a).latitude = l.latitude ∧
    (l.with_accuracy a).longitude = l.longitude ∧
    (l.with_accuracy a).timestamp = l.timestamp :=
  ⟨rfl, rfl, rfl, rfl⟩

/-- Claim C9: for every step whose maneuver type is arrive, whatever the
modifier, road name, road reference, bearing, distance and unit
preference, the generated text is exactly "Arrive at your destination". -/
theorem arrive_fixed_text (step : OSRMStep) (use_miles : Bool)
    (h : step.maneuver.maneuver_type = some "arrive") :
    generate_instruction_text step use_miles = "Arrive at your destination" := by
  simp [generate_instruction_text, h]

/-- Witness for claim C9 at a concrete step that carries a modifier, road
name, road reference, bearing and distance. -/
theorem arrive_fixed_text_witness :
    generate_instruction_text arrive_step true = "Arrive at your destination" :=
  arrive_fixed_text arrive_step true rfl

/-- Counterexample to claim C1 as stated: on a roundabout step with empty
street info the source appends the distance clause, so the output is
"Enter the roundabout for 500 m" rather than "Enter the roundabout"
alone. -/
theorem roundabout_counterexample :
    street_info roundabout_step = "" ∧
    generate_instruction_text roundabout_step false = "Enter the roundabout for 500 m" ∧
    "Enter the roundabout for 500 m" ≠ "Enter the roundabout" := by
  refine ⟨rfl, ?_, by decide⟩
  decide

/-- Claim C1 amended: on a roundabout step the text is "Enter the
roundabout for <formatDistance>" when the street info is empty, and
"Enter the roundabout and take <streetInfo> for <formatDistance>"
otherwise. -/
theorem roundabout_amended (step : OSRMStep) (use_miles : Bool)
    (h : step.maneuver.maneuver_type = some "roundabout") :
    generate_instruction_text step use_miles =
      (if street_info step = "" then
        "Enter the roundabout for " ++ format_distance step.distance use_miles
      else
        "Enter the roundabout and take " ++ street_info step ++ " for "
          ++ format_distance step.distance use_miles) := by
  simp [generate_instruction_text, h]

/-- Witness for the amended claim C1 at a concrete roundabout step. -/
theorem roundabout_amended_witness :
    generate_instruction_text roundabout_step false =
      (if street_info roundabout_step = "" then
        "Enter the roundabout for " ++ format_distance roundabout_step.distance false
      else
        "Enter the roundabout and take " ++ street_info roundabout_step ++ " for "
          ++ format_distance roundabout_step.distance false) :=
  roundabout_amended roundabout_step false rfl

/-- Claim C4: with fewer than two waypoints calculate_route fails with the
invalid-input error, whatever the unit preference and whatever the network
would have answered; conversely any successful route requires at least two
waypoints. -/
theorem calculate_route_requires_two_waypoints :
    (∀ (waypoints : List Waypoint) (use_miles : Bool) (now : ℕ) (outcome : HttpOutcome),
      waypoints.length < 2 →
      calculate_route waypoints use_miles now outcome =
        Except.error "At least 2 waypoints are required") ∧
    (∀ (waypoints : List Waypoint) (use_miles : Bool) (now : ℕ) (outcome : HttpOutcome)
      (r : RouteResponse),
      calculate_route waypoints use_miles now outcome = Except.ok r →
      2 ≤ waypoints.length) := by
  constructor
  · intro waypoints use_miles now outcome h
    simp [calculate_route, h]
  · intro waypoints use_miles now outcome r h
    by_contra hlt
    rw [not_le] at hlt
    unfold calculate_route at h
    rw [if_pos hlt] at h
    exact Except.noConfusion h

/-- Witness for claim C4: zero waypoints and one waypoint both produce the
invalid-input error. -/
theorem calculate_route_requires_two_waypoints_witness :
    calculate_route [] false 0 (HttpOutcome.transportFailure "no network") =
      Except.error "At least 2 waypoints are required" ∧
    calculate_route [waypoint0] true 0 (HttpOutcome.transportFailure "no network") =
      Except.error "At least 2 waypoints are required" :=
  ⟨calculate_route_requires_two_waypoints.1 [] false 0 _ (by decide),
   calculate_route_requires_two_waypoints.1 [waypoint0] true 0 _ (by simp)⟩

/-- Claim C2 is a code bug: on a provider item whose lat string is not a
valid float the source unwraps the parse result and panics (modelled as
none) instead of returning a typed ParseError; a well-formed item is
processed normally. -/
theorem geocode_panics_on_bad_float :
    rustParseF64 "abc" = none ∧
    geocode 0 [bad_nominatim] = none ∧
    (geocode 0 [good_nominatim]).isSome = true :=
  ⟨rfl, rfl, rfl⟩

/-- The normalized bearing lies in the interval from 0 inclusive to 360
exclusive, for every input angle. -/
theorem normalize_bearing_mem (b : ℚ) :
    0 ≤ normalize_bearing b ∧ normalize_bearing b < 360 := by
  unfold normalize_bearing
  rcases le_or_lt 0 b with hb | hb
  · obtain ⟨h1, _⟩ := rustRem_bounds_of_nonneg (by norm_num : (0:ℚ) < 360) hb
    exact rustRem_bounds_of_nonneg (by norm_num) (by linarith)
  · obtain ⟨h1, _⟩ := rustRem_bounds_of_neg (by norm_num : (0:ℚ) < 360) hb
    exact rustRem_bounds_of_nonneg (by norm_num) (by linarith)

/-- Claim C7: bearing_to_direction normalizes the angle into the interval
from 0 inclusive to 360 exclusive and maps it through the compass sector
table with boundaries at 22.5 plus multiples of 45 degrees; an absent
bearing yields "straight"; the tabulated examples hold. -/
theorem bearing_to_direction_spec :
    (∀ b : ℚ, 0 ≤ normalize_bearing b ∧ normalize_bearing b < 360 ∧
      bearing_to_direction (some b) = compass_sector (normalize_bearing b)) ∧
    bearing_to_direction none = "straight" ∧
    bearing_to_direction (some 0) = "north" ∧
    bearing_to_direction (some 44) = "northeast" ∧
    bearing_to_direction (some 359) = "north" := by
  refine ⟨fun b => ⟨(normalize_bearing_mem b).1, (normalize_bearing_mem b).2, rfl⟩,
    rfl, ?_, ?_, ?_⟩
  · decide
  · decide
  · decide

/-- Claim C8: miles formatting multiplies by 0.000621371 and keeps one
decimal; metric formatting keeps one decimal in kilometers at or above
1000 meters and whole meters below; the three tabulated examples hold. -/
theorem format_distance_spec :
    (∀ m : ℚ, format_distance m true = fmtFixed1 (m * 0.000621371) ++ " mi") ∧
    (∀ m : ℚ, 1000 ≤ m → format_distance m false = fmtFixed1 (m / 1000) ++ " km") ∧
    (∀ m : ℚ, m < 1000 → format_distance m false = fmtFixed0 m ++ " m") ∧
    format_distance 500 false = "500 m" ∧
    format_distance 1500 false = "1.5 km" ∧
    format_distance 1609.34 true = "1.0 mi" := by
  refine ⟨fun m => rfl, fun m h => ?_, fun m h => ?_, by decide, by decide, by decide⟩
  · simp [format_distance, ge_iff_le, h]
  · simp [format_distance, ge_iff_le, not_le.mpr h]

/-- Witness for claim C8 discharging the branch hypotheses at 2500 meters
and at 250 meters. -/
theorem format_distance_spec_witness :
    ((1000:ℚ) ≤ 2500 ∧ format_distance 2500 false = fmtFixed1 (2500 / 1000) ++ " km") ∧
    ((250:ℚ) < 1000 ∧ format_distance 250 false = fmtFixed0 250 ++ " m") :=
  ⟨⟨by norm_num, format_distance_spec.2.1 2500 (by norm_num)⟩,
   ⟨by norm_num, format_distance_spec.2.2.1 250 (by norm_num)⟩⟩

/-- Folding a push loop over steps appends the mapped steps to the
accumulator. -/
theorem foldl_push_steps (f : OSRMStep → RouteInstruction)
    (steps : List OSRMStep) (acc : List RouteInstruction) :
    steps.foldl (fun a step => a ++ [f step]) acc = acc ++ steps.map f := by
  induction steps generalizing acc with
  | nil => simp
  | cons s rest ih => simp [ih]

/-- parse_instructions is the leg-major, step-minor flattening of the legs
mapped through the per-step instruction builder. -/
theorem parse_instructions_eq (legs : List OSRMLeg) (use_miles : Bool) (now : ℕ) :
    parse_instructions legs use_miles now =
      (legs.flatMap OSRMLeg.steps).map (instruction_of_step use_miles now) := by
  suffices h : ∀ acc : List RouteInstruction,
      legs.foldl
        (fun acc leg =>
          leg.steps.foldl (fun acc step => acc ++ [instruction_of_step use_miles now step]) acc)
        acc
      = acc ++ (legs.flatMap OSRMLeg.steps).map (instruction_of_step use_miles now) by
    simpa [parse_instructions] using h []
  induction legs with
  | nil => simp
  | cons leg rest ih =>
    intro acc
    rw [List.foldl_cons, foldl_push_steps, ih]
    simp

/-- Claim C5: the instruction sequence flattens the legs and steps in
leg-major, step-minor order, its length is the total step count, each
instruction copies its step's distance and duration verbatim, and a route
of two legs with two steps each yields four instructions. -/
theorem parse_instructions_flatten :
    (∀ (legs : List OSRMLeg) (use_miles : Bool) (now : ℕ),
      parse_instructions legs use_miles now =
        (legs.flatMap OSRMLeg.steps).map (instruction_of_step use_miles now)) ∧
    (∀ (legs : List OSRMLeg) (use_miles : Bool) (now : ℕ),
      (parse_instructions legs use_miles now).length =
        (legs.map (fun leg => leg.steps.length)).sum) ∧
    (∀ (legs : List OSRMLeg) (use_miles : Bool) (now : ℕ),
      (parse_instructions legs use_miles now).map RouteInstruction.distance =
        (legs.flatMap OSRMLeg.steps).map OSRMStep.distance) ∧
    (∀ (legs : List OSRMLeg) (use_miles : Bool) (now : ℕ),
      (parse_instructions legs use_miles now).map RouteInstruction.duration =
        (legs.flatMap OSRMLeg.steps).map OSRMStep.duration) ∧
    (∀ (leg1 leg2 : OSRMLeg) (use_miles : Bool) (now : ℕ),
      leg1.steps.length = 2 → leg2.steps.length = 2 →
      (parse_instructions [leg1, leg2] use_miles now).length = 4) := by
  have hlen : ∀ (legs : List OSRMLeg) (use_miles : Bool) (now : ℕ),
      (parse_instructions legs use_miles now).length =
        (legs.map (fun leg => leg.steps.length)).sum := by
    intro legs use_miles now
    rw [parse_instructions_eq]
    simp only [List.length_map, List.length_flatMap]
    rfl
  refine ⟨parse_instructions_eq, hlen, ?_, ?_, ?_⟩
  · intro legs use_miles now
    rw [parse_instructions_eq, List.map_map]
    rfl
  · intro legs use_miles now
    rw [parse_instructions_eq, List.map_map]
    rfl
  · intro leg1 leg2 use_miles now h1 h2
    rw [hlen]
    simp [h1, h2]

/-- Witness for claim C5 at two concrete legs of two steps each. -/
theorem parse_instructions_flatten_witness :
    (parse_instructions [leg_two_steps, leg_two_steps] false 0).length = 4 :=
  parse_instructions_flatten.2.2.2.2 leg_two_steps leg_two_steps false 0 rfl rfl

/-- One update sets the history length to the bounded successor of the
previous length. -/
theorem update_location_length (s : GeolocationService) (l : Location)
    (h : s.location_history.length ≤ 100) :
    (s.update_location l).location_history.length =
      min (s.location_history.length + 1) 100 := by
  simp only [GeolocationService.update_location]
  split
  · rename_i hc
    simp only [List.length_append, List.length_singleton, List.length_drop] at hc ⊢
    omega
  · rename_i hc
    simp only [List.length_append, List.length_singleton] at hc ⊢
    omega

/-- Applying a sequence of updates keeps the history length at the bounded
sum of the starting length and the number of updates. -/
theorem applyUpdates_length (ls : List Location) (s : GeolocationService)
    (h : s.location_history.length ≤ 100) :
    (s.applyUpdates ls).location_history.length =
      min (s.location_history.length + ls.length) 100 := by
  induction ls generalizing s with
  | nil =>
    simp only [GeolocationService.applyUpdates, List.foldl_nil, List.length_nil]
    omega
  | cons l rest ih =>
    have h1 := update_location_length s l h
    have h2 : (s.update_location l).location_history.length ≤ 100 := by omega
    have h3 := ih (s.update_location l) h2
    simp only [GeolocationService.applyUpdates, List.foldl_cons] at h3 ⊢
    rw [h3, h1]
    simp only [List.length_cons]
    omega

/-- Claim C3: after every sequence of updates followed by one more update,
the last history entry equals the current location, the history holds at
most 100 entries, an insert below capacity appends without eviction, an
insert at capacity evicts exactly the oldest entry, and after 101 updates
the history has exactly 100 entries while the current location is the
101st update. -/
theorem location_store_invariants (ls : List Location) (l : Location) :
    ((GeolocationService.new.applyUpdates ls).update_location l).location_history.getLast?
        = some l ∧
    ((GeolocationService.new.applyUpdates ls).update_location l).current_location
        = some l ∧
    ((GeolocationService.new.applyUpdates ls).update_location l).location_history.length
        ≤ 100 ∧
    ((GeolocationService.new.applyUpdates ls).location_history.length < 100 →
      ((GeolocationService.new.applyUpdates ls).update_location l).location_history =
        (GeolocationService.new.applyUpdates ls).location_history ++ [l]) ∧
    ((GeolocationService.new.applyUpdates ls).location_history.length = 100 →
      ((GeolocationService.new.applyUpdates ls).update_location l).location_history =
        (GeolocationService.new.applyUpdates ls).location_history.drop 1 ++ [l]) ∧
    (ls.length = 100 →
      ((GeolocationService.new.applyUpdates ls).update_location l).location_history.length
        = 100) := by
  have hs0 : (GeolocationService.new.applyUpdates ls).location_history.length =
      min ls.length 100 := by
    have h := applyUpdates_length ls GeolocationService.new (by simp [GeolocationService.new])
    simpa [GeolocationService.new] using h
  have hle : (GeolocationService.new.applyUpdates ls).location_history.length ≤ 100 := by
    omega
  refine ⟨?_, rfl, ?_, ?_, ?_, ?_⟩
  · simp only [GeolocationService.update_location]
    split
    · rename_i hc
      simp only [List.length_append, List.length_singleton] at hc
      rw [List.drop_append_of_le_length (by omega), List.getLast?_concat]
    · rw [List.getLast?_concat]
  · have h := update_location_length (GeolocationService.new.applyUpdates ls) l hle
    omega
  · intro hlt
    simp only [GeolocationService.update_location]
    rw [if_neg]
    simp only [List.length_append, List.length_singleton]
    omega
  · intro heq
    simp only [GeolocationService.update_location]
    rw [if_pos (by simp only [List.length_append, List.length_singleton]; omega)]
    rw [List.drop_append_of_le_length (by omega)]
  · intro h100
    have h := update_location_length (GeolocationService.new.applyUpdates ls) l hle
    omega

/-- Witness for claim C3: after 100 updates with one location and a 101st
update with another, the history holds exactly 100 entries. -/
theorem location_store_invariants_witness :
    ((GeolocationService.new.applyUpdates (List.replicate 100 locA)).update_location
        locB).location_history.length = 100 :=
  (location_store_invariants (List.replicate 100 locA) locB).2.2.2.2.2 (by simp)

/-- Claim C6: the haversine distance is symmetric in its two endpoints and
vanishes on coincident points; being a total function it has no failure
modes. -/
theorem distance_to_symm_and_self :
    (∀ a b : Location, a.distance_to b = b.distance_to a) ∧
    (∀ a : Location, a.distance_to a = 0) := by
  constructor
  · intro a b
    have h1 : Real.sin (toRadians (a.latitude - b.latitude) / 2) ^ 2
        = Real.sin (toRadians (b.latitude - a.latitude) / 2) ^ 2 := by
      have hneg : toRadians (a.latitude - b.latitude) / 2
          = -(toRadians (b.latitude - a.latitude) / 2) := by
        unfold toRadians; ring
      rw [hneg, Real.sin_neg, neg_sq]
    have h2 : Real.sin (toRadians (a.longitude - b.longitude) / 2) ^ 2
        = Real.sin (toRadians (b.longitude - a.longitude) / 2) ^ 2 := by
      have hneg : toRadians (a.longitude - b.longitude) / 2
          = -(toRadians (b.longitude - a.longitude) / 2) := by
        unfold toRadians; ring
      rw [hneg, Real.sin_neg, neg_sq]
    have key : Real.sin (toRadians (b.latitude - a.latitude) / 2) ^ 2
          + Real.cos (toRadians a.latitude) * Real.cos (toRadians b.latitude)
            * Real.sin (toRadians (b.longitude - a.longitude) / 2) ^ 2
        = Real.sin (toRadians (a.latitude - b.latitude) / 2) ^ 2
          + Real.cos (toRadians b.latitude) * Real.cos (toRadians a.latitude)
            * Real.sin (toRadians (a.longitude - b.longitude) / 2) ^ 2 := by
      rw [h1, h2]; ring
    simp only [Location.distance_to]
    rw [key]
  · intro a
    have hz : toRadians 0 = 0 := by simp [toRadians]
    simp [Location.distance_to, hz, atan2, Real.sqrt_one]
